import Mathlib

/-!
# Verification of the custodial wallet / MCP tool server

Shallow embedding of the wallet vault, cipher, transfer executor, tool
dispatcher and transaction repository of the `mcp-sever` repository
(TypeScript sources under `src/`), together with proofs of the claims
about them.

External collaborators (the AES primitive of Node's `crypto` module, the
Solana RPC connection, keypair generation and ed25519 signing) are not
code of this repository; they enter the embedding as explicit function
parameters ("oracles"), exactly at the call sites where the source invokes
them.  Everything else is translated from the TypeScript source.
-/

namespace McpServer

/-! ## Cipher (wallet-service.ts, `encryptPrivateKey` / `decryptPrivateKey`)

The source encrypts with `aes-256-cbc` under a fresh 16-byte random IV and
returns `iv.toString('hex') + ':' + ciphertextHex`.  Decryption splits the
envelope on `':'` and feeds the parts back.  The AES core
(`crypto.createCipheriv` / `createDecipheriv`) is external: it appears as
the parameters `E` (plaintext → hex ciphertext, under an IV) and `D`
(its inverse). -/

/-- The sixteen lowercase hex digits, as produced by `Buffer.toString('hex')`. -/
def hexDigits : List Char := "0123456789abcdef".data

/-- The hex character of a nibble. -/
def hexDigit (n : Nat) : Char := hexDigits.getD n '0'

/-- Numeric value of a hex character (`indexOf` into the digit table). -/
def hexVal (c : Char) : Nat := hexDigits.indexOf c

/-- Two-character lowercase hex rendering of one byte. -/
def hexByte (b : Nat) : List Char := [hexDigit (b / 16), hexDigit (b % 16)]

/-- `Buffer.toString('hex')` on a byte list. -/
def toHexChars (bytes : List Nat) : List Char := bytes.flatMap hexByte

/-- `Buffer.from(s, 'hex')`: decode hex pairs back into bytes. -/
def fromHexChars : List Char → List Nat
  | a :: b :: rest => (16 * hexVal a + hexVal b) :: fromHexChars rest
  | _ => []

/-- JavaScript `String.prototype.split(sep)` for a single-character
separator, on the character list of the string. -/
def splitChar (sep : Char) : List Char → List (List Char)
  | [] => [[]]
  | c :: cs =>
    if c = sep then [] :: splitChar sep cs
    else
      match splitChar sep cs with
      | [] => [[c]]
      | p :: ps => (c :: p) :: ps

/-- `envelope.split(':')` as in `decryptPrivateKey`. -/
def splitColon (s : String) : List String :=
  (splitChar ':' s.data).map String.mk

/-- `encryptPrivateKey` (wallet-service.ts:545-557): draw an IV, encrypt the
plaintext with the AES primitive `E`, and return
`iv.toString('hex') + ':' + ciphertext`. -/
def encryptPrivateKey (E : List Nat → String → String) (iv : List Nat)
    (privateKey : String) : String :=
  String.mk (toHexChars iv) ++ ":" ++ E iv privateKey

/-- `decryptPrivateKey` (wallet-service.ts:562-575): split the envelope on
`':'` into IV hex and ciphertext hex and decrypt with the AES primitive
`D`. -/
def decryptPrivateKey (D : List Nat → String → String) (envelope : String) :
    String :=
  let parts := splitColon envelope
  let ivHex := parts.getD 0 ""
  let encryptedHex := parts.getD 1 ""
  D (fromHexChars ivHex.data) encryptedHex

/-! ### Cipher lemmas -/

theorem hexVal_hexDigit {n : Nat} (h : n < 16) : hexVal (hexDigit n) = n := by
  interval_cases n <;> decide

theorem fromHexChars_hexByte (b : Nat) (hb : b < 256) (rest : List Char) :
    fromHexChars (hexByte b ++ rest) = b :: fromHexChars rest := by
  have h1 : b / 16 < 16 := by omega
  have h2 : b % 16 < 16 := Nat.mod_lt _ (by norm_num)
  simp [hexByte, fromHexChars, hexVal_hexDigit h1, hexVal_hexDigit h2]
  omega

theorem fromHexChars_toHexChars {bytes : List Nat}
    (h : ∀ b ∈ bytes, b < 256) : fromHexChars (toHexChars bytes) = bytes := by
  induction bytes with
  | nil => rfl
  | cons b bs ih =>
    have hb : b < 256 := h b (List.mem_cons_self ..)
    have hbs : ∀ x ∈ bs, x < 256 := fun x hx => h x (List.mem_cons_of_mem _ hx)
    simpa [toHexChars, fromHexChars_hexByte b hb] using
      congrArg (b :: ·) (ih hbs)

theorem hexDigit_ne_colon (n : Nat) : hexDigit n ≠ ':' := by
  by_cases h : n < 16
  · interval_cases n <;> decide
  · have h0 : hexDigit n = '0' := by
      unfold hexDigit
      apply List.getD_eq_default
      simpa [hexDigits] using Nat.le_of_not_lt h
    rw [h0]; decide

theorem colon_not_mem_toHexChars (bytes : List Nat) :
    ':' ∉ toHexChars bytes := by
  intro hmem
  simp only [toHexChars, List.mem_flatMap] at hmem
  obtain ⟨b, _, hb⟩ := hmem
  simp only [hexByte, List.mem_cons, List.not_mem_nil, or_false] at hb
  rcases hb with h | h <;> exact hexDigit_ne_colon _ h.symm

theorem splitChar_no_sep {sep : Char} {l : List Char} (h : sep ∉ l) :
    splitChar sep l = [l] := by
  induction l with
  | nil => rfl
  | cons c cs ih =>
    have hc : c ≠ sep := fun hcs => h (hcs ▸ List.mem_cons_self ..)
    have hcs : sep ∉ cs := fun hm => h (List.mem_cons_of_mem _ hm)
    simp [splitChar, hc, ih hcs]

theorem splitChar_append_sep {sep : Char} {a : List Char} (b : List Char)
    (ha : sep ∉ a) :
    splitChar sep (a ++ sep :: b) = a :: splitChar sep b := by
  induction a with
  | nil => simp [splitChar]
  | cons c cs ih =>
    have hc : c ≠ sep := fun hcs => ha (hcs ▸ List.mem_cons_self ..)
    have hcs : sep ∉ cs := fun hm => ha (List.mem_cons_of_mem _ hm)
    have h2 := ih hcs
    show (if c = sep then _ else _) = _
    rw [if_neg hc]
    show (match splitChar sep (cs ++ sep :: b) with
      | [] => [[c]]
      | p :: ps => (c :: p) :: ps) = _
    rw [h2]

theorem length_toHexChars (bytes : List Nat) :
    (toHexChars bytes).length = 2 * bytes.length := by
  induction bytes with
  | nil => rfl
  | cons b bs ih => simp [toHexChars, hexByte] at ih ⊢; omega

theorem data_envelope (iv : List Nat) (ct : String) :
    (String.mk (toHexChars iv) ++ ":" ++ ct).data
      = toHexChars iv ++ ':' :: ct.data := by
  simp [String.data_append]

theorem splitColon_envelope (iv : List Nat) (ct : String)
    (hct : ':' ∉ ct.data) :
    splitColon (String.mk (toHexChars iv) ++ ":" ++ ct)
      = [String.mk (toHexChars iv), ct] := by
  unfold splitColon
  rw [data_envelope, splitChar_append_sep _ (colon_not_mem_toHexChars iv),
    splitChar_no_sep hct]
  cases ct
  rfl

theorem decryptPrivateKey_encryptPrivateKey
    (E D : List Nat → String → String) (iv : List Nat) (s : String)
    (hround : D iv (E iv s) = s) (hnc : ':' ∉ (E iv s).data)
    (hb : ∀ b ∈ iv, b < 256) :
    decryptPrivateKey D (encryptPrivateKey E iv s) = s := by
  unfold decryptPrivateKey encryptPrivateKey
  rw [splitColon_envelope iv _ hnc]
  simpa [fromHexChars_toHexChars hb] using hround

theorem encryptPrivateKey_inj_iv
    (E : List Nat → String → String) (iv iv' : List Nat) (s s' : String)
    (hlen : iv.length = iv'.length)
    (hb : ∀ b ∈ iv, b < 256) (hb' : ∀ b ∈ iv', b < 256)
    (hne : iv ≠ iv') :
    encryptPrivateKey E iv s ≠ encryptPrivateKey E iv' s' := by
  intro heq
  have hdata := congrArg String.data heq
  unfold encryptPrivateKey at hdata
  rw [data_envelope, data_envelope] at hdata
  have hlhex : (toHexChars iv).length = (toHexChars iv').length := by
    rw [length_toHexChars, length_toHexChars, hlen]
  have hhex := (List.append_inj hdata hlhex).1
  exact hne (by
    rw [← fromHexChars_toHexChars hb, ← fromHexChars_toHexChars hb', hhex])

/-- **C2.** For every plaintext secret `s` and AES primitive pair `(E, D)`
that is a correct cipher at the used points (decryption inverts encryption
and the hex ciphertext contains no `':'`, as holds for
`aes-256-cbc`/hex output), `decryptPrivateKey` inverts `encryptPrivateKey`;
and two envelopes for the same plaintext built from distinct fresh IVs of
the configured 16-byte size are distinct, because the envelope is the IV
(hex) joined with the ciphertext into a single string. -/
theorem cipher_roundtrip_and_fresh_iv_distinct
    (E D : List Nat → String → String) (iv iv' : List Nat) (s : String)
    (hround : D iv (E iv s) = s) (hnc : ':' ∉ (E iv s).data)
    (hlen : iv.length = 16) (hlen' : iv'.length = 16)
    (hb : ∀ b ∈ iv, b < 256) (hb' : ∀ b ∈ iv', b < 256)
    (hne : iv ≠ iv') :
    decryptPrivateKey D (encryptPrivateKey E iv s) = s ∧
    encryptPrivateKey E iv s ≠ encryptPrivateKey E iv' s :=
  ⟨decryptPrivateKey_encryptPrivateKey E D iv s hround hnc hb,
    encryptPrivateKey_inj_iv E iv iv' s s (hlen.trans hlen'.symm) hb hb' hne⟩

/-- Witness for C2: a concrete cipher pair, IVs and plaintext. -/
theorem cipher_roundtrip_and_fresh_iv_distinct_witness :
    decryptPrivateKey (fun _ t => t)
      (encryptPrivateKey (fun _ t => t) (List.replicate 16 0) "secret")
        = "secret" ∧
    encryptPrivateKey (fun _ t => t) (List.replicate 16 0) "secret"
      ≠ encryptPrivateKey (fun _ t => t) (1 :: List.replicate 15 0) "secret" :=
  cipher_roundtrip_and_fresh_iv_distinct (fun _ t => t) (fun _ t => t)
    (List.replicate 16 0) (1 :: List.replicate 15 0) "secret"
    rfl (by decide) (by decide) (by decide) (by decide) (by decide) (by decide)

/-! ## Persistence repository (wallet-service.ts, SQLite tables)

Rows of the `wallets` and `social_accounts` tables, a snapshot of the
store, and the insert operations with their uniqueness constraints
(`public_key UNIQUE`, `UNIQUE(platform, platform_id)`) as declared in
`WALLET_SCHEMA` and `SOCIAL_ACCOUNT_SCHEMA`.  `AUTOINCREMENT` ids are
modelled by the `nextWalletId` / `nextSocialId` counters.  Timestamp
columns (`CURRENT_TIMESTAMP` defaults) are not modelled. -/

structure WalletRow where
  id : Nat
  publicKey : String
  isCustodial : Bool
  label : Option String
  encryptedPrivateKey : Option String
  deriving DecidableEq, Repr

structure SocialAccountRow where
  id : Nat
  platform : String
  platformId : String
  walletId : Nat
  deriving DecidableEq, Repr

structure DB where
  wallets : List WalletRow
  socialAccounts : List SocialAccountRow
  nextWalletId : Nat
  nextSocialId : Nat
  deriving DecidableEq, Repr

/-- The `WalletInfo` record assembled by `getWalletById` and the other
read operations (wallet columns plus the wallet's social accounts). -/
structure WalletInfo where
  id : Nat
  publicKey : String
  isCustodial : Bool
  label : Option String
  encryptedPrivateKey : Option String
  socialAccounts : List SocialAccountRow
  deriving DecidableEq, Repr

/-- A repository operation issued by `createWallet`, recorded so that the
order of checks and inserts is visible. -/
inductive RepoOp where
  | selectSocial (platform platformId : String)
  | insertWallet (publicKey : String)
  | insertSocial (platform platformId : String) (walletId : Nat)
  deriving DecidableEq, Repr

/-- JavaScript `label || null`: the empty string is falsy and becomes null. -/
def strOrNone : Option String → Option String
  | some "" => none
  | x => x

/-- `SELECT * FROM social_accounts WHERE platform = ? AND platform_id = ?`
(`db.get` returns the first matching row). -/
def findSocial (db : DB) (platform platformId : String) :
    Option SocialAccountRow :=
  db.socialAccounts.find?
    (fun a => a.platform == platform && a.platformId == platformId)

/-- `INSERT INTO wallets (public_key, is_custodial, label,
encrypted_private_key) VALUES (?, ?, ?, ?)`; rejected by the
`public_key UNIQUE` constraint. Returns the new store and `lastID`. -/
def insertWalletRow (db : DB) (publicKey : String) (isCustodial : Bool)
    (label : Option String) (enc : Option String) :
    Except String (DB × Nat) :=
  if db.wallets.any (fun w => w.publicKey == publicKey) then
    .error "UNIQUE constraint failed: wallets.public_key"
  else
    .ok ({ db with
            wallets := db.wallets ++
              [⟨db.nextWalletId, publicKey, isCustodial, label, enc⟩],
            nextWalletId := db.nextWalletId + 1 },
         db.nextWalletId)

/-- `INSERT INTO social_accounts (platform, platform_id, wallet_id)
VALUES (?, ?, ?)`; rejected by the `UNIQUE(platform, platform_id)`
constraint. -/
def insertSocialRow (db : DB) (platform platformId : String)
    (walletId : Nat) : Except String DB :=
  if db.socialAccounts.any
      (fun a => a.platform == platform && a.platformId == platformId) then
    .error "UNIQUE constraint failed: social_accounts.platform, social_accounts.platform_id"
  else
    .ok { db with
            socialAccounts := db.socialAccounts ++
              [⟨db.nextSocialId, platform, platformId, walletId⟩],
            nextSocialId := db.nextSocialId + 1 }

/-- `getWalletById` (wallet-service.ts:248-280): look the wallet row up by
id — throwing if absent — and attach its social accounts. -/
def getWalletById (db : DB) (walletId : Nat) : Except String WalletInfo :=
  match db.wallets.find? (fun w => w.id == walletId) with
  | none => .error s!"Wallet with ID {walletId} not found"
  | some w =>
    .ok ⟨w.id, w.publicKey, w.isCustodial, w.label, w.encryptedPrivateKey,
      db.socialAccounts.filter (fun a => a.walletId == walletId)⟩

/-- `getWalletBySocialAccount` (wallet-service.ts:428-450): `null` when the
identity is unbound, otherwise `getWalletById` on the bound wallet
(errors propagate). -/
def getWalletBySocialAccount (db : DB) (platform platformId : String) :
    Except String (Option WalletInfo) :=
  match findSocial db platform platformId with
  | none => .ok none
  | some sa => (getWalletById db sa.walletId).map some

/-- `createWallet` (wallet-service.ts:200-243).  The external keypair
generation (`Keypair.generate()`) enters as the `publicKey` / `privateKey`
parameters; the AES primitive and fresh IV as `E` / `iv`.  The body:
1. `db.get` existence check on `(platform, platform_id)` — throw
   "already linked" if a row exists;
2. encrypt the secret;
3. insert the wallet row;
4. insert the social-account row;
5. return `getWalletById(lastID)`.
No transaction wraps the two inserts.  The result carries the final store
and the ordered list of repository operations that were issued. -/
def createWallet (E : List Nat → String → String) (iv : List Nat)
    (publicKey privateKey : String) (db : DB)
    (platform platformId : String) (label : Option String) :
    Except String WalletInfo × DB × List RepoOp :=
  match findSocial db platform platformId with
  | some _ =>
    (.error s!"Social account {platform}:{platformId} already linked to a wallet",
     db, [RepoOp.selectSocial platform platformId])
  | none =>
    let encryptedKey := encryptPrivateKey E iv privateKey
    match insertWalletRow db publicKey true (strOrNone label)
        (some encryptedKey) with
    | .error e =>
      (.error e, db,
       [RepoOp.selectSocial platform platformId,
        RepoOp.insertWallet publicKey])
    | .ok (db1, walletId) =>
      match insertSocialRow db1 platform platformId walletId with
      | .error e =>
        (.error e, db1,
         [RepoOp.selectSocial platform platformId,
          RepoOp.insertWallet publicKey,
          RepoOp.insertSocial platform platformId walletId])
      | .ok db2 =>
        (getWalletById db2 walletId, db2,
         [RepoOp.selectSocial platform platformId,
          RepoOp.insertWallet publicKey,
          RepoOp.insertSocial platform platformId walletId])

/-! ### createWallet: duplicate detection and the check-then-act shape -/

/-- The evaluation of `createWallet` on a fresh identity and a fresh
public key: the prior existence check passes and both inserts succeed. -/
theorem createWallet_ok_eq (E : List Nat → String → String) (iv : List Nat)
    (pk sk : String) (db : DB) (platform platformId : String)
    (label : Option String)
    (h1 : findSocial db platform platformId = none)
    (h2 : db.wallets.any (fun w => w.publicKey == pk) = false) :
    createWallet E iv pk sk db platform platformId label =
      (getWalletById
        { wallets := db.wallets ++
            [⟨db.nextWalletId, pk, true, strOrNone label,
              some (encryptPrivateKey E iv sk)⟩],
          socialAccounts := db.socialAccounts ++
            [⟨db.nextSocialId, platform, platformId, db.nextWalletId⟩],
          nextWalletId := db.nextWalletId + 1,
          nextSocialId := db.nextSocialId + 1 } db.nextWalletId,
       { wallets := db.wallets ++
            [⟨db.nextWalletId, pk, true, strOrNone label,
              some (encryptPrivateKey E iv sk)⟩],
          socialAccounts := db.socialAccounts ++
            [⟨db.nextSocialId, platform, platformId, db.nextWalletId⟩],
          nextWalletId := db.nextWalletId + 1,
          nextSocialId := db.nextSocialId + 1 },
       [RepoOp.selectSocial platform platformId, RepoOp.insertWallet pk,
        RepoOp.insertSocial platform platformId db.nextWalletId]) := by
  have hany_s : db.socialAccounts.any
      (fun a => a.platform == platform && a.platformId == platformId)
        = false := by
    rw [List.any_eq_false]
    intro a ha
    have := List.find?_eq_none.mp h1 a ha
    simpa using this
  unfold createWallet
  rw [h1]
  unfold insertWalletRow
  rw [h2]
  simp only [Bool.false_eq_true, if_false]
  unfold insertSocialRow
  simp only [hany_s, Bool.false_eq_true, if_false]

/-- A store in which the identity `(twitter, alice)` is already bound. -/
def dupDb : DB :=
  { wallets := [⟨1, "PK1", true, none, some "00:aa"⟩],
    socialAccounts := [⟨1, "twitter", "alice", 1⟩],
    nextWalletId := 2, nextSocialId := 2 }

/-- **C1 counterexample.** On an identity that is already bound,
`createWallet` raises the duplicate error from the prior `SELECT`
existence check that it performs before the insert: the repository trace
of the call is the single `selectSocial` lookup, and neither insert (hence
neither uniqueness constraint) is ever reached.  This contradicts the
claim that the duplicate is detected by the repository's uniqueness
constraint rather than a prior existence check. -/
theorem createWallet_duplicate_via_prior_check :
    createWallet (fun _ t => t) (List.replicate 16 0) "PK2" "SK2" dupDb
        "twitter" "alice" none
      = (.error "Social account twitter:alice already linked to a wallet",
         dupDb, [RepoOp.selectSocial "twitter" "alice"]) := rfl

/-- **C1 (amended).** For every identity already bound, `createWallet`
fails with the duplicate-binding error, and two sequential calls for the
same identity yield exactly one success and one duplicate error — but the
duplicate is detected by the prior existence check executed before any
insert (check-then-act): the failing call's repository trace contains only
the `SELECT`, and the store is unchanged by it. -/
theorem createWallet_one_success_one_duplicate
    (E : List Nat → String → String) (iv iv2 : List Nat)
    (pk sk pk2 sk2 : String) (db : DB) (platform platformId : String)
    (label label2 : Option String)
    (h1 : findSocial db platform platformId = none)
    (h2 : db.wallets.any (fun w => w.publicKey == pk) = false)
    (h3 : ∀ w ∈ db.wallets, w.id ≠ db.nextWalletId) :
    (∃ info, (createWallet E iv pk sk db platform platformId label).1
      = .ok info) ∧
    createWallet E iv2 pk2 sk2
        (createWallet E iv pk sk db platform platformId label).2.1
        platform platformId label2
      = (.error
          s!"Social account {platform}:{platformId} already linked to a wallet",
         (createWallet E iv pk sk db platform platformId label).2.1,
         [RepoOp.selectSocial platform platformId]) := by
  rw [createWallet_ok_eq E iv pk sk db platform platformId label h1 h2]
  constructor
  · simp only [getWalletById]
    rw [List.find?_append,
      List.find?_eq_none.mpr (fun w hw => by simpa using h3 w hw)]
    simp only [Option.none_or, List.find?_singleton, beq_self_eq_true,
      if_true]
    exact ⟨_, rfl⟩
  · have hfind : findSocial
        { wallets := db.wallets ++
            [⟨db.nextWalletId, pk, true, strOrNone label,
              some (encryptPrivateKey E iv sk)⟩],
          socialAccounts := db.socialAccounts ++
            [⟨db.nextSocialId, platform, platformId, db.nextWalletId⟩],
          nextWalletId := db.nextWalletId + 1,
          nextSocialId := db.nextSocialId + 1 } platform platformId
        = some ⟨db.nextSocialId, platform, platformId, db.nextWalletId⟩ := by
      unfold findSocial at h1 ⊢
      simp only [List.find?_append, h1]
      simp
    unfold createWallet
    rw [hfind]

/-- Witness for the amended C1: both conjuncts at a concrete store. -/
theorem createWallet_one_success_one_duplicate_witness :
    (∃ info, (createWallet (fun _ t => t) (List.replicate 16 0) "PK9" "SK9"
        ⟨[], [], 1, 1⟩ "twitter" "carol" none).1 = .ok info) ∧
    createWallet (fun _ t => t) (List.replicate 16 0) "PK8" "SK8"
        ((createWallet (fun _ t => t) (List.replicate 16 0) "PK9" "SK9"
          ⟨[], [], 1, 1⟩ "twitter" "carol" none).2.1)
        "twitter" "carol" none
      = (.error "Social account twitter:carol already linked to a wallet",
         (createWallet (fun _ t => t) (List.replicate 16 0) "PK9" "SK9"
           ⟨[], [], 1, 1⟩ "twitter" "carol" none).2.1,
         [RepoOp.selectSocial "twitter" "carol"]) :=
  createWallet_one_success_one_duplicate (fun _ t => t)
    (List.replicate 16 0) (List.replicate 16 0) "PK9" "SK9" "PK8" "SK8"
    ⟨[], [], 1, 1⟩ "twitter" "carol" none none
    rfl rfl (by simp)

/-! ## Transactions, instructions and vault signing

`@solana/web3.js` objects used by the transfer paths.  An instruction is a
program id, an ordered account-meta list and a data byte array; a
transaction is a list of instructions plus blockhash, fee payer and the
signatures placed on it.  Ed25519 signing (`transaction.sign(keypair)`,
with the keypair rebuilt by `Keypair.fromSecretKey(bs58.decode(...))`) is
external and enters as the oracle `sig`, a function of the decrypted
secret-key string and the transaction being signed. -/

structure AccountMeta where
  pubkey : String
  isSigner : Bool
  isWritable : Bool
  deriving DecidableEq, Repr

structure Instruction where
  programId : String
  keys : List AccountMeta
  data : List Nat
  deriving DecidableEq, Repr

structure Tx where
  instructions : List Instruction
  recentBlockhash : Option String
  feePayer : Option String
  signatures : List String
  deriving DecidableEq, Repr

/-- `signWalletTransaction` (wallet-service.ts:512-540): select
`encrypted_private_key` by public key, fail when there is no row or the
column is empty/null, otherwise decrypt, rebuild the keypair and sign the
transaction with it.  (`!wallet.encrypted_private_key` is also true for
the empty string, hence the extra guard.) -/
def signWalletTransaction (sig : String → Tx → String)
    (D : List Nat → String → String) (db : DB)
    (walletPublicKey : String) (transaction : Tx) : Except String Tx :=
  match db.wallets.find? (fun w => w.publicKey == walletPublicKey) with
  | none =>
    .error s!"Cannot sign with wallet {walletPublicKey}: wallet not found or no private key available"
  | some w =>
    match w.encryptedPrivateKey with
    | none =>
      .error s!"Cannot sign with wallet {walletPublicKey}: wallet not found or no private key available"
    | some enc =>
      if enc = "" then
        .error s!"Cannot sign with wallet {walletPublicKey}: wallet not found or no private key available"
      else
        let privateKey := decryptPrivateKey D enc
        .ok { transaction with signatures := [sig privateKey transaction] }

/-- **C3.** `signWalletTransaction` fails with the wallet-not-found error
whenever no wallet row carries the requested public key or the stored row
has no encrypted secret; and whenever it succeeds, the signature it
returns is computed from the secret obtained by decrypting the encrypted
key stored in a row whose `public_key` is exactly the requested one —
never from another wallet's secret. -/
theorem signWalletTransaction_notfound_and_origin
    (sig : String → Tx → String) (D : List Nat → String → String)
    (db : DB) (pk : String) (tx : Tx) :
    (db.wallets.find? (fun w => w.publicKey == pk) = none →
      signWalletTransaction sig D db pk tx
        = .error s!"Cannot sign with wallet {pk}: wallet not found or no private key available") ∧
    (∀ w, db.wallets.find? (fun w => w.publicKey == pk) = some w →
      w.encryptedPrivateKey = none →
      signWalletTransaction sig D db pk tx
        = .error s!"Cannot sign with wallet {pk}: wallet not found or no private key available") ∧
    (∀ tx', signWalletTransaction sig D db pk tx = .ok tx' →
      ∃ w enc, db.wallets.find? (fun v => v.publicKey == pk) = some w ∧
        w.publicKey = pk ∧ w.encryptedPrivateKey = some enc ∧
        tx' = { tx with signatures := [sig (decryptPrivateKey D enc) tx] }) := by
  refine ⟨fun h => by simp only [signWalletTransaction, h],
    fun w hw henc => by simp only [signWalletTransaction, hw, henc],
    fun tx' h => ?_⟩
  unfold signWalletTransaction at h
  rcases hfind : db.wallets.find? (fun v => v.publicKey == pk) with _ | w
  · rw [hfind] at h; cases h
  · rw [hfind] at h
    dsimp only at h
    rcases henc : w.encryptedPrivateKey with _ | enc
    · rw [henc] at h; cases h
    · rw [henc] at h
      dsimp only at h
      by_cases hempty : enc = ""
      · rw [if_pos hempty] at h; cases h
      · rw [if_neg hempty] at h
        refine ⟨w, enc, hfind, ?_, henc, (Except.ok.injEq .. ▸ h).symm⟩
        have := List.find?_some hfind
        simpa using this

/-- Witness for C3: a concrete store, cipher and signer; the success
branch produces the signature derived from the stored secret. -/
theorem signWalletTransaction_notfound_and_origin_witness :
    ∃ w enc,
      (DB.mk [⟨1, "PK", true, none, some "aa:bb"⟩] [] 2 1).wallets.find?
          (fun v => v.publicKey == "PK") = some w ∧
      w.publicKey = "PK" ∧ w.encryptedPrivateKey = some enc ∧
      Tx.mk [] none none ["bb"]
        = { Tx.mk [] none none [] with
            signatures := [(fun s _ => s) (decryptPrivateKey (fun _ c => c) enc)
              (Tx.mk [] none none [])] } :=
  (signWalletTransaction_notfound_and_origin (fun s _ => s) (fun _ c => c)
    (DB.mk [⟨1, "PK", true, none, some "aa:bb"⟩] [] 2 1) "PK"
    (Tx.mk [] none none [])).2.2 (Tx.mk [] none none ["bb"]) rfl

/-! ## Transfer executor (tool-service.ts, `sendSolSecure` / `sendTokenSecure`)

Amounts are JavaScript numbers, modelled as rationals.  The Solana
`Connection` is the external Ledger Gateway; its operations enter as the
`Gateway` oracle and every call the executor makes to it is recorded in
an ordered trace, so "without contacting the Ledger Gateway" is the trace
being empty.  `new PublicKey(...)` is local base58 parsing, modelled by
the `validAddress` predicate (it throws on a malformed address and makes
no network call). -/

/-- JavaScript `Math.round` (round half up). -/
def jsRound (q : ℚ) : ℤ := ⌊q + 1 / 2⌋

/-- A call made to the ledger gateway (`Connection`). -/
inductive GatewayCall where
  | getLatestBlockhash
  | getParsedTokenAccountsByOwner (owner mint : String)
  | sendRawTransaction
  | confirmTransaction (signature : String)
  deriving DecidableEq, Repr

/-- The external ledger RPC surface consumed by the executor. -/
structure Gateway where
  latestBlockhash : Except String String
  tokenAccountsByOwner : String → String → Except String (List String)
  submit : Tx → Except String String
  confirm : String → Except String Unit

/-- `TokenkegQfeZyiNwAJbNbGKPFXCWuBvf9Ss623VQ5DA`, hard-coded in the
source as the token program id. -/
def TOKEN_PROGRAM_ID : String := "TokenkegQfeZyiNwAJbNbGKPFXCWuBvf9Ss623VQ5DA"

/-- `sendSolSecure` (tool-service.ts:368-435): parse the two addresses,
validate `amount > 0`, convert to lamports, build the single system
transfer instruction (`SystemProgram.transfer`, external — the oracle
`sysTransfer`), fetch a blockhash, set blockhash and fee payer, sign via
the wallet service, submit, confirm.  Every thrown error is re-wrapped by
the catch as `Failed to send SOL: ...`.  The second component is the
ordered list of gateway calls made. -/
def sendSolSecure (validAddress : String → Bool)
    (sysTransfer : String → String → ℤ → Instruction)
    (sig : String → Tx → String) (D : List Nat → String → String)
    (gw : Gateway) (db : DB) (fromWalletPublicKey toAddress : String)
    (amount : ℚ) : Except String String × List GatewayCall :=
  if validAddress fromWalletPublicKey = false
      ∨ validAddress toAddress = false then
    (.error "Failed to send SOL: Invalid public key input", [])
  else if amount ≤ 0 then
    (.error "Failed to send SOL: Amount must be greater than 0", [])
  else
    let lamports := jsRound (amount * 1000000000)
    let transaction : Tx :=
      ⟨[sysTransfer fromWalletPublicKey toAddress lamports], none, none, []⟩
    match gw.latestBlockhash with
    | .error e =>
      (.error s!"Failed to send SOL: {e}", [GatewayCall.getLatestBlockhash])
    | .ok blockhash =>
      let transaction := { transaction with
        recentBlockhash := some blockhash,
        feePayer := some fromWalletPublicKey }
      match signWalletTransaction sig D db fromWalletPublicKey transaction with
      | .error e =>
        (.error s!"Failed to send SOL: {e}", [GatewayCall.getLatestBlockhash])
      | .ok signedTransaction =>
        match gw.submit signedTransaction with
        | .error e =>
          (.error s!"Failed to send SOL: {e}",
           [GatewayCall.getLatestBlockhash, GatewayCall.sendRawTransaction])
        | .ok signature =>
          match gw.confirm signature with
          | .error e =>
            (.error s!"Failed to send SOL: {e}",
             [GatewayCall.getLatestBlockhash, GatewayCall.sendRawTransaction,
              GatewayCall.confirmTransaction signature])
          | .ok _ =>
            (.ok signature,
             [GatewayCall.getLatestBlockhash, GatewayCall.sendRawTransaction,
              GatewayCall.confirmTransaction signature])

/-- **C7.** For every amount that is zero or negative, `sendSolSecure`
fails before making any call to the ledger gateway — no blockhash fetch,
no submission, no confirmation — and, when the addresses parse, the error
is the amount-validation error. -/
theorem sendSolSecure_nonpositive_amount_no_gateway
    (validAddress : String → Bool)
    (sysTransfer : String → String → ℤ → Instruction)
    (sig : String → Tx → String) (D : List Nat → String → String)
    (gw : Gateway) (db : DB) (fromWalletPublicKey toAddress : String)
    (amount : ℚ) (hamt : amount ≤ 0) :
    (sendSolSecure validAddress sysTransfer sig D gw db fromWalletPublicKey
        toAddress amount).2 = [] ∧
    (validAddress fromWalletPublicKey = true → validAddress toAddress = true →
      (sendSolSecure validAddress sysTransfer sig D gw db fromWalletPublicKey
        toAddress amount).1
        = .error "Failed to send SOL: Amount must be greater than 0") := by
  unfold sendSolSecure
  by_cases hv : validAddress fromWalletPublicKey = false
      ∨ validAddress toAddress = false
  · rw [if_pos hv]
    exact ⟨rfl, fun h1 h2 => by
      rcases hv with h | h <;> simp [h1, h2] at h⟩
  · rw [if_neg hv, if_pos hamt]
    exact ⟨rfl, fun _ _ => rfl⟩

/-- Witness for C7: amount `0` with a gateway whose calls would all
succeed; the executor still returns the validation error with an empty
gateway trace. -/
theorem sendSolSecure_nonpositive_amount_no_gateway_witness :
    (sendSolSecure (fun _ => true) (fun _ _ _ => ⟨"sys", [], []⟩)
        (fun s _ => s) (fun _ c => c)
        ⟨.ok "bh", fun _ _ => .ok [], fun _ => .ok "s", fun _ => .ok ()⟩
        ⟨[], [], 1, 1⟩ "FROM" "TO" 0).2 = [] ∧
    ((fun (_ : String) => true) "FROM" = true →
      (fun (_ : String) => true) "TO" = true →
      (sendSolSecure (fun _ => true) (fun _ _ _ => ⟨"sys", [], []⟩)
        (fun s _ => s) (fun _ c => c)
        ⟨.ok "bh", fun _ _ => .ok [], fun _ => .ok "s", fun _ => .ok ()⟩
        ⟨[], [], 1, 1⟩ "FROM" "TO" 0).1
        = .error "Failed to send SOL: Amount must be greater than 0") :=
  sendSolSecure_nonpositive_amount_no_gateway (fun _ => true)
    (fun _ _ _ => ⟨"sys", [], []⟩) (fun s _ => s) (fun _ c => c)
    ⟨.ok "bh", fun _ _ => .ok [], fun _ => .ok "s", fun _ => .ok ()⟩
    ⟨[], [], 1, 1⟩ "FROM" "TO" 0 (by norm_num)

/-! ### Token transfers (tool-service.ts, `sendTokenSecure`) -/

/-- `Buffer.alloc(8); writeBigUInt64LE(n)`: the 8-byte little-endian
rendering of an unsigned 64-bit integer. -/
def u64LE (n : ℕ) : List ℕ := (List.range 8).map (fun i => n / 256 ^ i % 256)

/-- Read back a little-endian byte list as an unsigned integer. -/
def decodeU64LE (l : List ℕ) : ℕ := l.foldr (fun b acc => b + 256 * acc) 0

/-- The SPL-token `Transfer` instruction constructed at
tool-service.ts:988-996: opcode byte `3` followed by the scaled amount as
`u64` little-endian, with accounts
`[sender holding account (writable), recipient holding account (writable),
sender owner (signer)]`. -/
def tokenTransferInstruction
    (fromTokenAccount toTokenAccount fromPublicKey : String)
    (adjustedAmount : ℕ) : Instruction :=
  { programId := TOKEN_PROGRAM_ID,
    keys := [⟨fromTokenAccount, false, true⟩, ⟨toTokenAccount, false, true⟩,
      ⟨fromPublicKey, true, false⟩],
    data := 3 :: u64LE adjustedAmount }

/-- The tail of `sendTokenSecure` (tool-service.ts:998-1039), from the
point where the transfer instruction has been built: fetch a blockhash,
assemble and sign the transaction, submit and confirm, wrapping errors as
`Failed to send token: ...`. -/
def finalizeTokenSend (sig : String → Tx → String)
    (D : List Nat → String → String) (gw : Gateway) (db : DB)
    (fromWalletPublicKey : String) (instruction : Instruction)
    (calls0 : List GatewayCall) :
    Except String String × List GatewayCall × Option Instruction :=
  match gw.latestBlockhash with
  | .error e =>
    (.error s!"Failed to send token: {e}",
     calls0 ++ [GatewayCall.getLatestBlockhash], some instruction)
  | .ok blockhash =>
    let transaction : Tx :=
      ⟨[instruction], some blockhash, some fromWalletPublicKey, []⟩
    match signWalletTransaction sig D db fromWalletPublicKey transaction with
    | .error e =>
      (.error s!"Failed to send token: {e}",
       calls0 ++ [GatewayCall.getLatestBlockhash], some instruction)
    | .ok signedTransaction =>
      match gw.submit signedTransaction with
      | .error e =>
        (.error s!"Failed to send token: {e}",
         calls0 ++ [GatewayCall.getLatestBlockhash,
           GatewayCall.sendRawTransaction], some instruction)
      | .ok signature =>
        match gw.confirm signature with
        | .error e =>
          (.error s!"Failed to send token: {e}",
           calls0 ++ [GatewayCall.getLatestBlockhash,
             GatewayCall.sendRawTransaction,
             GatewayCall.confirmTransaction signature],
           some instruction)
        | .ok _ =>
          (.ok signature,
           calls0 ++ [GatewayCall.getLatestBlockhash,
             GatewayCall.sendRawTransaction,
             GatewayCall.confirmTransaction signature],
           some instruction)

theorem finalizeTokenSend_built (sig : String → Tx → String)
    (D : List Nat → String → String) (gw : Gateway) (db : DB)
    (fromWalletPublicKey : String) (instruction : Instruction)
    (calls0 : List GatewayCall) :
    (finalizeTokenSend sig D gw db fromWalletPublicKey instruction
      calls0).2.2 = some instruction := by
  unfold finalizeTokenSend
  rcases gw.latestBlockhash with e | blockhash
  · rfl
  · dsimp only
    rcases signWalletTransaction sig D db fromWalletPublicKey _ with e | signed
    · rfl
    · dsimp only
      rcases gw.submit signed with e | signature
      · rfl
      · dsimp only
        rcases gw.confirm signature with e | u
        · rfl
        · rfl

/-- `sendTokenSecure` (tool-service.ts:933-1039): parse the three
addresses, enumerate the sender's and the recipient's holding accounts
for the mint (failing if either is empty — no account creation), scale
the amount by `10^decimals` with `Math.floor`, build the transfer
instruction (`BigInt`/`writeBigUInt64LE` rejects values outside the u64
range), then blockhash / sign / submit / confirm as for SOL.  Errors are
re-wrapped as `Failed to send token: ...`.  The result also carries the
gateway-call trace and the instruction that was built, when the
construction was reached. -/
def sendTokenSecure (validAddress : String → Bool)
    (sig : String → Tx → String) (D : List Nat → String → String)
    (gw : Gateway) (db : DB)
    (fromWalletPublicKey toAddress tokenMint : String)
    (amount : ℚ) (decimals : ℤ) :
    Except String String × List GatewayCall × Option Instruction :=
  if validAddress fromWalletPublicKey = false
      ∨ validAddress toAddress = false
      ∨ validAddress tokenMint = false then
    (.error "Failed to send token: Invalid public key input", [], none)
  else
    match gw.tokenAccountsByOwner fromWalletPublicKey tokenMint with
    | .error e =>
      (.error s!"Failed to send token: {e}",
       [GatewayCall.getParsedTokenAccountsByOwner fromWalletPublicKey tokenMint],
       none)
    | .ok tokenAccounts =>
      match tokenAccounts.head? with
      | none =>
        (.error s!"Failed to send token: No token account found for mint {tokenMint}",
         [GatewayCall.getParsedTokenAccountsByOwner fromWalletPublicKey tokenMint],
         none)
      | some fromTokenAccount =>
        match gw.tokenAccountsByOwner toAddress tokenMint with
        | .error e =>
          (.error s!"Failed to send token: {e}",
           [GatewayCall.getParsedTokenAccountsByOwner fromWalletPublicKey tokenMint,
            GatewayCall.getParsedTokenAccountsByOwner toAddress tokenMint],
           none)
        | .ok recipientTokenAccounts =>
          match recipientTokenAccounts.head? with
          | none =>
            (.error s!"Failed to send token: Recipient does not have a token account for mint {tokenMint}",
             [GatewayCall.getParsedTokenAccountsByOwner fromWalletPublicKey tokenMint,
              GatewayCall.getParsedTokenAccountsByOwner toAddress tokenMint],
             none)
          | some toTokenAccount =>
            let adjustedAmount : ℤ := ⌊amount * 10 ^ decimals⌋
            if adjustedAmount < 0 ∨ 2 ^ 64 ≤ adjustedAmount then
              (.error "Failed to send token: value out of range for 8-byte unsigned integer",
               [GatewayCall.getParsedTokenAccountsByOwner fromWalletPublicKey tokenMint,
                GatewayCall.getParsedTokenAccountsByOwner toAddress tokenMint],
               none)
            else
              finalizeTokenSend sig D gw db fromWalletPublicKey
                (tokenTransferInstruction fromTokenAccount toTokenAccount
                  fromWalletPublicKey adjustedAmount.toNat)
                [GatewayCall.getParsedTokenAccountsByOwner fromWalletPublicKey tokenMint,
                 GatewayCall.getParsedTokenAccountsByOwner toAddress tokenMint]

theorem u64LE_eq (n : ℕ) :
    u64LE n = [n % 256, n / 256 % 256, n / 65536 % 256, n / 16777216 % 256,
      n / 4294967296 % 256, n / 1099511627776 % 256,
      n / 281474976710656 % 256, n / 72057594037927936 % 256] := by
  unfold u64LE
  norm_num [List.range_succ]

theorem length_u64LE (n : ℕ) : (u64LE n).length = 8 := by
  rw [u64LE_eq]; rfl

theorem decodeU64LE_u64LE (n : ℕ) (h : n < 2 ^ 64) :
    decodeU64LE (u64LE n) = n := by
  rw [u64LE_eq]
  unfold decodeU64LE
  simp only [List.foldr]
  omega

/-- **C8.** Whenever `sendTokenSecure` builds a transfer instruction, the
amount has been scaled by `10^decimals` (with `Math.floor`) before being
encoded, and the instruction matches the SPL token program's `Transfer`
convention byte for byte: a single opcode byte `3` followed by the scaled
amount as an 8-byte little-endian unsigned integer, with the accounts
ordered `[sender holding account (writable), recipient holding account
(writable), sender owner (signer)]` — the holding accounts being the
first ones the gateway reports for each side. -/
theorem sendTokenSecure_instruction_encoding
    (validAddress : String → Bool) (sig : String → Tx → String)
    (D : List Nat → String → String) (gw : Gateway) (db : DB)
    (fromWalletPublicKey toAddress tokenMint : String)
    (amount : ℚ) (decimals : ℤ) (ins : Instruction)
    (h : (sendTokenSecure validAddress sig D gw db fromWalletPublicKey
      toAddress tokenMint amount decimals).2.2 = some ins) :
    (∃ accounts fromTokenAccount recipientAccounts toTokenAccount,
      gw.tokenAccountsByOwner fromWalletPublicKey tokenMint
        = .ok accounts ∧
      accounts.head? = some fromTokenAccount ∧
      gw.tokenAccountsByOwner toAddress tokenMint = .ok recipientAccounts ∧
      recipientAccounts.head? = some toTokenAccount ∧
      ins.keys = [⟨fromTokenAccount, false, true⟩, ⟨toTokenAccount, false, true⟩,
        ⟨fromWalletPublicKey, true, false⟩]) ∧
    ins.programId = TOKEN_PROGRAM_ID ∧
    ins.data = 3 :: u64LE (⌊amount * 10 ^ decimals⌋).toNat ∧
    (ins.data.drop 1).length = 8 ∧
    decodeU64LE (ins.data.drop 1) = (⌊amount * 10 ^ decimals⌋).toNat := by
  unfold sendTokenSecure at h
  by_cases hv : validAddress fromWalletPublicKey = false
      ∨ validAddress toAddress = false ∨ validAddress tokenMint = false
  · rw [if_pos hv] at h; cases h
  rw [if_neg hv] at h
  rcases h1 : gw.tokenAccountsByOwner fromWalletPublicKey tokenMint
    with e | accounts
  · rw [h1] at h; cases h
  rw [h1] at h; dsimp only at h
  rcases h2 : accounts.head? with _ | fromTokenAccount
  · rw [h2] at h; cases h
  rw [h2] at h; dsimp only at h
  rcases h3 : gw.tokenAccountsByOwner toAddress tokenMint
    with e | recipientAccounts
  · rw [h3] at h; cases h
  rw [h3] at h; dsimp only at h
  rcases h4 : recipientAccounts.head? with _ | toTokenAccount
  · rw [h4] at h; cases h
  rw [h4] at h; dsimp only at h
  by_cases h5 : (⌊amount * 10 ^ decimals⌋ : ℤ) < 0
      ∨ (2 : ℤ) ^ 64 ≤ ⌊amount * 10 ^ decimals⌋
  · rw [if_pos h5] at h; cases h
  rw [if_neg h5, finalizeTokenSend_built] at h
  have hins := (Option.some.inj h).symm
  subst hins
  refine ⟨⟨accounts, fromTokenAccount, recipientAccounts, toTokenAccount,
    rfl, h2, rfl, h4, rfl⟩, rfl, rfl, ?_, ?_⟩
  · simp [tokenTransferInstruction, length_u64LE]
  · have hrange : (⌊amount * 10 ^ decimals⌋ : ℤ).toNat < 2 ^ 64 := by omega
    simpa [tokenTransferInstruction] using
      decodeU64LE_u64LE _ hrange

/-- Witness for C8: a concrete gateway and amount `5` with 2 decimals;
the built instruction carries opcode 3 and `500` little-endian. -/
theorem sendTokenSecure_instruction_encoding_witness :
    (∃ accounts fromTokenAccount recipientAccounts toTokenAccount,
      (Gateway.mk (.ok "bh") (fun o _ => .ok [o]) (fun _ => .ok "s")
        (fun _ => .ok ())).tokenAccountsByOwner "FROM" "MINT"
          = .ok accounts ∧
      accounts.head? = some fromTokenAccount ∧
      (Gateway.mk (.ok "bh") (fun o _ => .ok [o]) (fun _ => .ok "s")
        (fun _ => .ok ())).tokenAccountsByOwner "TO" "MINT"
          = .ok recipientAccounts ∧
      recipientAccounts.head? = some toTokenAccount ∧
      (tokenTransferInstruction "FROM" "TO" "FROM" 500).keys
        = [⟨fromTokenAccount, false, true⟩, ⟨toTokenAccount, false, true⟩,
          ⟨"FROM", true, false⟩]) ∧
    (tokenTransferInstruction "FROM" "TO" "FROM" 500).programId
      = TOKEN_PROGRAM_ID ∧
    (tokenTransferInstruction "FROM" "TO" "FROM" 500).data
      = 3 :: u64LE (⌊(5 : ℚ) * 10 ^ (2 : ℤ)⌋).toNat ∧
    ((tokenTransferInstruction "FROM" "TO" "FROM" 500).data.drop 1).length
      = 8 ∧
    decodeU64LE ((tokenTransferInstruction "FROM" "TO" "FROM" 500).data.drop 1)
      = (⌊(5 : ℚ) * 10 ^ (2 : ℤ)⌋).toNat :=
  sendTokenSecure_instruction_encoding (fun _ => true) (fun s _ => s)
    (fun _ c => c)
    (Gateway.mk (.ok "bh") (fun o _ => .ok [o]) (fun _ => .ok "s")
      (fun _ => .ok ()))
    ⟨[], [], 1, 1⟩ "FROM" "TO" "MINT" 5 2
    (tokenTransferInstruction "FROM" "TO" "FROM" 500) (by
      have h500 : (⌊(5 : ℚ) * 10 ^ (2 : ℤ)⌋ : ℤ) = 500 := by norm_num
      simp only [sendTokenSecure, h500]
      norm_num [finalizeTokenSend_built]
      rfl)

/-! ## Dispatch timeout (routes/api.ts, POST /mcp/tools/:toolName)

The route races `toolService.executeTool` against a `setTimeout` rejection
after a fixed 30000 ms (`TIMEOUT_MS`).  Time is discrete; a handler is
described by the instant at which it settles (`none` for a handler that
never resolves).  `Promise.race` resolves with the first settled promise;
the losing handler promise is not cancelled and still settles at its own
time, which the model records unchanged. -/

/-- One piece of the result `content` array
(`{ type: "text", text: ... }`). -/
structure ContentItem where
  type : String
  text : Option String
  deriving DecidableEq, Repr

/-- The result envelope of tool execution (`ToolExecutionResult`);
`isError` is an optional field, absent on success paths. -/
structure ToolExecutionResult where
  content : List ContentItem
  isError : Option Bool
  deriving DecidableEq, Repr

/-- `TIMEOUT_MS` (api.ts:91): the fixed 30-second timeout. -/
def TIMEOUT_MS : ℕ := 30000

/-- What the route's await of the race produces. -/
inductive RaceOutcome where
  | completed (r : ToolExecutionResult)
  | timedOut (message : String)
  deriving DecidableEq, Repr

structure DispatchTrace where
  outcome : RaceOutcome
  outcomeTime : ℕ
  handlerCompletionTime : Option ℕ
  deriving DecidableEq, Repr

/-- The race at api.ts:95-108: if the handler settles at `t ≤ TIMEOUT_MS`
the caller receives its result at `t` (and the timer is cleared);
otherwise the timer rejection (`ApiError 408,
"Tool execution timed out after 30000ms"`) reaches the caller at
`TIMEOUT_MS`, while the handler — which nothing cancels — still completes
at its own time. -/
def dispatchWithTimeout (handlerTime : Option ℕ) (r : ToolExecutionResult) :
    DispatchTrace :=
  match handlerTime with
  | none =>
    ⟨.timedOut s!"Tool execution timed out after {TIMEOUT_MS}ms",
     TIMEOUT_MS, none⟩
  | some t =>
    if t ≤ TIMEOUT_MS then ⟨.completed r, t, some t⟩
    else
      ⟨.timedOut s!"Tool execution timed out after {TIMEOUT_MS}ms",
       TIMEOUT_MS, some t⟩

/-- **C5.** The dispatch route races the handler against a fixed constant
timeout of 30000 ms; if the timer fires before the handler settles the
caller receives the timed-out error, at exactly the configured duration —
not before and not indefinitely after — including for a handler that
never resolves; and the underlying handler is not cancelled: its own
completion time is unaffected by the race. -/
theorem dispatch_timeout_spec :
    TIMEOUT_MS = 30000 ∧
    (∀ r, dispatchWithTimeout none r
      = ⟨.timedOut "Tool execution timed out after 30000ms", 30000, none⟩) ∧
    (∀ t r, TIMEOUT_MS < t →
      (dispatchWithTimeout (some t) r).outcome
          = .timedOut "Tool execution timed out after 30000ms" ∧
        (dispatchWithTimeout (some t) r).outcomeTime = TIMEOUT_MS) ∧
    (∀ ht r, (dispatchWithTimeout ht r).handlerCompletionTime = ht) := by
  refine ⟨rfl, fun r => rfl, fun t r ht => ?_, fun ht r => ?_⟩
  · have heq : dispatchWithTimeout (some t) r
        = ⟨.timedOut "Tool execution timed out after 30000ms",
            TIMEOUT_MS, some t⟩ := by
      unfold dispatchWithTimeout
      dsimp only
      rw [if_neg (by omega)]
      rfl
    rw [heq]
    exact ⟨rfl, rfl⟩
  · unfold dispatchWithTimeout
    rcases ht with _ | t
    · rfl
    · dsimp only
      by_cases h : t ≤ TIMEOUT_MS
      · rw [if_pos h]
      · rw [if_neg h]

/-- Witness for C5: a handler settling at 30001 ms loses the race at
exactly 30000 ms. -/
theorem dispatch_timeout_spec_witness :
    (dispatchWithTimeout (some 30001) ⟨[], none⟩).outcome
        = .timedOut "Tool execution timed out after 30000ms" ∧
      (dispatchWithTimeout (some 30001) ⟨[], none⟩).outcomeTime
        = TIMEOUT_MS :=
  dispatch_timeout_spec.2.2.1 30001 ⟨[], none⟩ (by decide)

/-! ## Transfer records (transaction-service database, `src/unnamed/part_010`,
and routes/transaction.ts) -/

/-- A row of the `transactions` table. -/
structure TransactionRecord where
  id : Nat
  signature : String
  senderWalletId : Nat
  recipientWalletId : Option Nat
  recipientAddress : String
  amount : ℚ
  tokenMint : Option String
  tokenSymbol : Option String
  status : String
  createdAt : String
  confirmedAt : Option String
  blockTime : Option ℚ
  fee : Option ℚ
  deriving DecidableEq, Repr

/-- JavaScript `x || null` on an optional number: `0` is falsy. -/
def jsNumOrNull : Option ℚ → Option ℚ
  | some q => if q = 0 then none else some q
  | none => none

/-- `updateTransactionStatus` (part_010:818-838):
`UPDATE transactions SET status = ?, confirmed_at = ?, block_time = ?,
fee = ? WHERE signature = ?`, with `confirmed_at` set to the current time
exactly when the new status is `confirmed`.  Returns whether any row
matched.  There is no guard on the row's current status. -/
def updateTransactionStatus (db : List TransactionRecord) (now : String)
    (signature status : String) (blockTime fee : Option ℚ) :
    List TransactionRecord × Bool :=
  let confirmedAt := if status = "confirmed" then some now else none
  (db.map (fun t =>
    if t.signature == signature then
      { t with
          status := status, confirmedAt := confirmedAt,
          blockTime := jsNumOrNull blockTime, fee := jsNumOrNull fee }
    else t),
   db.any (fun t => t.signature == signature))

/-- The status whitelist of `PATCH /transaction/:signature/status`
(transaction.ts:119): `pending` is an accepted target status. -/
def patchStatusAllowed (status : String) : Bool :=
  ["pending", "confirmed", "failed"].contains status

/-- **C9 counterexample.** The externally reachable status update accepts
`pending` as a target and applies it to a record whose status is
`confirmed`: the record moves out of `confirmed` back to `pending` (its
`confirmed_at`, `block_time` and `fee` are nulled as well), so transfer
records are not mutated only by the transitions
`pending → confirmed` / `pending → failed`. -/
theorem updateTransactionStatus_moves_out_of_confirmed :
    patchStatusAllowed "pending" = true ∧
    updateTransactionStatus
        [⟨1, "sig1", 1, none, "addr", 1, none, none, "confirmed", "t0",
          some "t1", some 5, some 1⟩] "t2" "sig1" "pending" none none
      = ([⟨1, "sig1", 1, none, "addr", 1, none, none, "pending", "t0",
          none, none, none⟩], true) := by
  constructor
  · rfl
  · rfl

/-- **C9 (amended).** `updateTransactionStatus` changes only the fields
`status`, `confirmed_at`, `block_time` and `fee`: every other field of
every record is preserved, rows with a different signature are untouched,
and every matching row receives exactly the requested status — but no
transition discipline is enforced: the requested status is applied
regardless of the row's current status (in particular `confirmed` and
`failed` rows can be moved back to `pending`, as the counterexample
shows). -/
theorem updateTransactionStatus_fields_spec
    (db : List TransactionRecord) (now signature status : String)
    (blockTime fee : Option ℚ) :
    List.Forall₂ (fun t u =>
      u.id = t.id ∧ u.signature = t.signature ∧
      u.senderWalletId = t.senderWalletId ∧
      u.recipientWalletId = t.recipientWalletId ∧
      u.recipientAddress = t.recipientAddress ∧
      u.amount = t.amount ∧ u.tokenMint = t.tokenMint ∧
      u.tokenSymbol = t.tokenSymbol ∧ u.createdAt = t.createdAt ∧
      (t.signature = signature → u.status = status) ∧
      (t.signature ≠ signature → u = t))
      db (updateTransactionStatus db now signature status blockTime fee).1 := by
  unfold updateTransactionStatus
  dsimp only
  induction db with
  | nil => exact List.Forall₂.nil
  | cons t ts ih =>
    simp only [List.map_cons]
    refine List.Forall₂.cons ?_ ih
    dsimp only
    by_cases h : (t.signature == signature) = true
    · rw [if_pos h]
      exact ⟨rfl, rfl, rfl, rfl, rfl, rfl, rfl, rfl, rfl, fun _ => rfl,
        fun hne => absurd (by simpa using h) hne⟩
    · rw [if_neg h]
      exact ⟨rfl, rfl, rfl, rfl, rfl, rfl, rfl, rfl, rfl,
        fun he => absurd (by simpa using he) (by simpa using h),
        fun _ => rfl⟩

/-! ## Wallet read operations over a fallible store (wallet-service.ts)

`getWalletsForUser`, `getWalletByPublicKey`, `getSocialAccountsForWallet`
and `getAllWallets` each wrap their body in `try/catch`; a storage error
(`.error` from the query oracle) is caught and replaced by an empty
array / `null`. -/

/-- The SQLite query surface used by the read operations; every query can
throw. -/
structure Repo where
  allSocialByPlatformId : String → Except String (List SocialAccountRow)
  walletRowByPublicKey : String → Except String (Option WalletRow)
  allSocialByWalletId : Nat → Except String (List SocialAccountRow)
  allWalletRows : Except String (List WalletRow)
  walletRowById : Nat → Except String (Option WalletRow)

/-- Assemble the `WalletInfo` shape returned by the read operations. -/
def mkWalletInfo (w : WalletRow) (sa : List SocialAccountRow) : WalletInfo :=
  ⟨w.id, w.publicKey, w.isCustodial, w.label, w.encryptedPrivateKey, sa⟩

/-- `[...new Set(xs)]`: deduplicate keeping first occurrences. -/
def jsSetDedup : List Nat → List Nat
  | [] => []
  | x :: xs => x :: jsSetDedup (xs.filter (fun y => y != x))
termination_by l => l.length
decreasing_by
  simp only [List.length_cons]
  exact Nat.lt_succ_of_le (List.length_filter_le _ _)

/-- `getWalletById` run against the fallible store (called in the loop of
`getWalletsForUser`); throws when the wallet row is missing. -/
def getWalletByIdR (repo : Repo) (walletId : Nat) :
    Except String WalletInfo := do
  match ← repo.walletRowById walletId with
  | none => throw s!"Wallet with ID {walletId} not found"
  | some w => do
    let sa ← repo.allSocialByWalletId walletId
    pure (mkWalletInfo w sa)

/-- `getWalletsForUser` (wallet-service.ts:74-109): query the social
accounts for the platform id, return `[]` when there are none, otherwise
collect the wallets for the deduplicated wallet ids; any storage error is
caught and becomes `[]`. -/
def getWalletsForUser (repo : Repo) (platformId : String) :
    List WalletInfo :=
  let body : Except String (List WalletInfo) := do
    let socialAccounts ← repo.allSocialByPlatformId platformId
    if socialAccounts.isEmpty then
      pure []
    else
      let walletIds := jsSetDedup (socialAccounts.map (·.walletId))
      walletIds.mapM (getWalletByIdR repo)
  match body with
  | .ok r => r
  | .error _ => []

/-- `getWalletByPublicKey` (wallet-service.ts:287-332): `null` when no row
matches; any storage error is caught and becomes `null`. -/
def getWalletByPublicKey (repo : Repo) (publicKey : String) :
    Option WalletInfo :=
  let body : Except String (Option WalletInfo) := do
    match ← repo.walletRowByPublicKey publicKey with
    | none => pure none
    | some w => do
      let sa ← repo.allSocialByWalletId w.id
      pure (some (mkWalletInfo w sa))
  match body with
  | .ok r => r
  | .error _ => none

/-- `getSocialAccountsForWallet` (wallet-service.ts:339-373): `[]` when the
wallet does not exist; any storage error is caught and becomes `[]`. -/
def getSocialAccountsForWallet (repo : Repo) (publicKey : String) :
    List SocialAccountRow :=
  let body : Except String (List SocialAccountRow) := do
    match ← repo.walletRowByPublicKey publicKey with
    | none => pure []
    | some w => repo.allSocialByWalletId w.id
  match body with
  | .ok r => r
  | .error _ => []

/-- `getAllWallets` (wallet-service.ts:379-423): all wallets with their
social accounts; any storage error is caught and becomes `[]`. -/
def getAllWallets (repo : Repo) : List WalletInfo :=
  let body : Except String (List WalletInfo) := do
    let wallets ← repo.allWalletRows
    wallets.mapM (fun w => do
      let sa ← repo.allSocialByWalletId w.id
      pure (mkWalletInfo w sa))
  match body with
  | .ok r => r
  | .error _ => []

/-- **C10.** The wallet read/list operations swallow repository failures:
whenever the underlying storage query throws, `getWalletsForUser`,
`getSocialAccountsForWallet` and `getAllWallets` return `[]` and
`getWalletByPublicKey` returns `null` — exactly the values they return
when the store succeeds but holds nothing, so a caller cannot distinguish
"no wallet exists" from "storage failure". -/
theorem read_ops_swallow_repo_failures (repo : Repo)
    (platformId publicKey : String) :
    (∀ e, repo.allSocialByPlatformId platformId = .error e →
      getWalletsForUser repo platformId = []) ∧
    (∀ e, repo.walletRowByPublicKey publicKey = .error e →
      getWalletByPublicKey repo publicKey = none) ∧
    (∀ e, repo.walletRowByPublicKey publicKey = .error e →
      getSocialAccountsForWallet repo publicKey = []) ∧
    (∀ e, repo.allWalletRows = .error e → getAllWallets repo = []) ∧
    (repo.allSocialByPlatformId platformId = .ok [] →
      getWalletsForUser repo platformId = []) ∧
    (repo.walletRowByPublicKey publicKey = .ok none →
      getWalletByPublicKey repo publicKey = none) ∧
    (repo.walletRowByPublicKey publicKey = .ok none →
      getSocialAccountsForWallet repo publicKey = []) ∧
    (repo.allWalletRows = .ok [] → getAllWallets repo = []) := by
  refine ⟨fun e h => ?_, fun e h => ?_, fun e h => ?_, fun e h => ?_,
    fun h => ?_, fun h => ?_, fun h => ?_, fun h => ?_⟩ <;>
    simp [getWalletsForUser, getWalletByPublicKey,
      getSocialAccountsForWallet, getAllWallets, h, Except.bind, bind,
      pure, Except.pure, List.mapM, List.mapM.loop]

/-- Witness for C10: a store whose every query throws; all four reads
return empty results. -/
theorem read_ops_swallow_repo_failures_witness :
    getWalletsForUser
        ⟨fun _ => .error "db", fun _ => .error "db", fun _ => .error "db",
          .error "db", fun _ => .error "db"⟩ "alice" = [] ∧
    getWalletByPublicKey
        ⟨fun _ => .error "db", fun _ => .error "db", fun _ => .error "db",
          .error "db", fun _ => .error "db"⟩ "PK" = none ∧
    getSocialAccountsForWallet
        ⟨fun _ => .error "db", fun _ => .error "db", fun _ => .error "db",
          .error "db", fun _ => .error "db"⟩ "PK" = [] ∧
    getAllWallets
        ⟨fun _ => .error "db", fun _ => .error "db", fun _ => .error "db",
          .error "db", fun _ => .error "db"⟩ = [] := by
  refine ⟨?_, ?_, ?_, ?_⟩
  · exact (read_ops_swallow_repo_failures _ "alice" "PK").1 "db" rfl
  · exact (read_ops_swallow_repo_failures _ "alice" "PK").2.1 "db" rfl
  · exact (read_ops_swallow_repo_failures _ "alice" "PK").2.2.1 "db" rfl
  · exact (read_ops_swallow_repo_failures _ "alice" "PK").2.2.2.1 "db" rfl

/-! ## transferToIdentity (`sendSolToUser`, part_007:632-707 and the
executeTool case at tool-service.ts:654-743 — the two bodies are the same
flow) -/

/-- The success message assembled by the handler, with the
"A new wallet was created" line present exactly when a wallet was
created. -/
def solSuccessText (senderPlatform senderPlatformId recipientPlatform
    recipientPlatformId : String) (amount : ℚ) (walletCreated : Bool)
    (signature : String) : String :=
  s!"Successfully sent {amount} SOL from {senderPlatform}:{senderPlatformId} to {recipientPlatform}:{recipientPlatformId}.\n"
  ++ (if walletCreated then
      s!"A new wallet was created for {recipientPlatform}:{recipientPlatformId}.\n"
    else "")
  ++ s!"Transaction signature: {signature}"

/-- The tail of the handler from the `sendSolSecure` call on
(part_007:670-705): run the transfer, and produce either the error
envelope (via the catch) or the success envelope. -/
def sendSolToUserSend (validAddress : String → Bool)
    (sysTransfer : String → String → ℤ → Instruction)
    (sig : String → Tx → String) (D : List Nat → String → String)
    (gw : Gateway) (db1 : DB) (senderPk recipientPk : String)
    (senderPlatform senderPlatformId recipientPlatform
      recipientPlatformId : String) (amount : ℚ) (walletCreated : Bool) :
    ToolExecutionResult × DB × Bool :=
  match (sendSolSecure validAddress sysTransfer sig D gw db1 senderPk
      recipientPk amount).1 with
  | .error e =>
    (⟨[⟨"text", some s!"Error sending SOL to user: {e}"⟩], some true⟩,
     db1, walletCreated)
  | .ok signature =>
    (⟨[⟨"text", some (solSuccessText senderPlatform senderPlatformId
        recipientPlatform recipientPlatformId amount walletCreated
        signature)⟩], none⟩,
     db1, walletCreated)

/-- The `sendSolToUser` handler: resolve the sender's wallet (error
envelope when the identity is unbound), resolve the recipient's wallet
and — when the identity is unbound — create one via `createWallet` with
label `platform-platformId` before transferring, then run the transfer.
Thrown errors become `isError` envelopes through the surrounding catch.
The result carries the envelope, the resulting store, and the
`walletCreated` flag the handler computes and reports. -/
def sendSolToUserCore (E : List Nat → String → String) (iv : List Nat)
    (genPub genPriv : String) (validAddress : String → Bool)
    (sysTransfer : String → String → ℤ → Instruction)
    (sig : String → Tx → String) (D : List Nat → String → String)
    (gw : Gateway) (db : DB)
    (senderPlatform senderPlatformId recipientPlatform
      recipientPlatformId : String) (amount : ℚ) :
    ToolExecutionResult × DB × Bool :=
  match getWalletBySocialAccount db senderPlatform senderPlatformId with
  | .error e =>
    (⟨[⟨"text", some s!"Error sending SOL to user: {e}"⟩], some true⟩,
     db, false)
  | .ok none =>
    (⟨[⟨"text", some s!"No wallet found for sender {senderPlatform}:{senderPlatformId}"⟩],
      some true⟩, db, false)
  | .ok (some senderWallet) =>
    match getWalletBySocialAccount db recipientPlatform
        recipientPlatformId with
    | .error e =>
      (⟨[⟨"text", some s!"Error sending SOL to user: {e}"⟩], some true⟩,
       db, false)
    | .ok (some recipientWallet) =>
      sendSolToUserSend validAddress sysTransfer sig D gw db
        senderWallet.publicKey recipientWallet.publicKey senderPlatform
        senderPlatformId recipientPlatform recipientPlatformId amount false
    | .ok none =>
      match createWallet E iv genPub genPriv db recipientPlatform
          recipientPlatformId
          (some s!"{recipientPlatform}-{recipientPlatformId}") with
      | (.error e, db1, _) =>
        (⟨[⟨"text", some s!"Error sending SOL to user: {e}"⟩], some true⟩,
         db1, false)
      | (.ok recipientWallet, db1, _) =>
        sendSolToUserSend validAddress sysTransfer sig D gw db1
          senderWallet.publicKey recipientWallet.publicKey senderPlatform
          senderPlatformId recipientPlatform recipientPlatformId amount true

theorem sendSolToUserSend_state (validAddress : String → Bool)
    (sysTransfer : String → String → ℤ → Instruction)
    (sig : String → Tx → String) (D : List Nat → String → String)
    (gw : Gateway) (db1 : DB) (senderPk recipientPk : String)
    (sp spid rp rpid : String) (amount : ℚ) (wc : Bool) :
    (sendSolToUserSend validAddress sysTransfer sig D gw db1 senderPk
        recipientPk sp spid rp rpid amount wc).2.1 = db1 ∧
    (sendSolToUserSend validAddress sysTransfer sig D gw db1 senderPk
        recipientPk sp spid rp rpid amount wc).2.2 = wc := by
  unfold sendSolToUserSend
  rcases (sendSolSecure validAddress sysTransfer sig D gw db1 senderPk
    recipientPk amount).1 with e | s <;> exact ⟨rfl, rfl⟩

theorem sendSolToUserSend_reports (validAddress : String → Bool)
    (sysTransfer : String → String → ℤ → Instruction)
    (sig : String → Tx → String) (D : List Nat → String → String)
    (gw : Gateway) (db1 : DB) (senderPk recipientPk : String)
    (sp spid rp rpid : String) (amount : ℚ) :
    (sendSolToUserSend validAddress sysTransfer sig D gw db1 senderPk
        recipientPk sp spid rp rpid amount true).1.isError = none →
    ∃ pre post,
      (sendSolToUserSend validAddress sysTransfer sig D gw db1 senderPk
          recipientPk sp spid rp rpid amount true).1.content
        = [⟨"text",
            some (pre ++ s!"A new wallet was created for {rp}:{rpid}.\n"
              ++ post)⟩] := by
  unfold sendSolToUserSend
  rcases (sendSolSecure validAddress sysTransfer sig D gw db1 senderPk
    recipientPk amount).1 with e | s
  · intro hc; cases hc
  · intro _
    exact ⟨s!"Successfully sent {amount} SOL from {sp}:{spid} to {rp}:{rpid}.\n",
      s!"Transaction signature: {s}", by simp [solSuccessText]⟩

/-- **C6.** The `sendSolToUser` transfer: when the sender identity has no
wallet it fails with the sender-not-found error envelope without touching
the store; when the recipient identity has no wallet it creates exactly
one via `createWallet` before transferring, reports the
wallet-was-created flag as `true` and — when the transfer succeeds —
includes the "A new wallet was created" line in the result; and a call
with the recipient already bound creates no wallet, leaves the store
unchanged and reports the flag as `false`. -/
theorem sendSolToUser_spec (E : List Nat → String → String) (iv : List Nat)
    (genPub genPriv : String) (validAddress : String → Bool)
    (sysTransfer : String → String → ℤ → Instruction)
    (sig : String → Tx → String) (D : List Nat → String → String)
    (gw : Gateway) (db : DB) (sp spid rp rpid : String) (amount : ℚ) :
    (getWalletBySocialAccount db sp spid = .ok none →
      sendSolToUserCore E iv genPub genPriv validAddress sysTransfer sig D
          gw db sp spid rp rpid amount
        = (⟨[⟨"text", some s!"No wallet found for sender {sp}:{spid}"⟩],
            some true⟩, db, false)) ∧
    (∀ senderWallet,
      getWalletBySocialAccount db sp spid = .ok (some senderWallet) →
      findSocial db rp rpid = none →
      db.wallets.any (fun w => w.publicKey == genPub) = false →
      (∀ w ∈ db.wallets, w.id ≠ db.nextWalletId) →
      (sendSolToUserCore E iv genPub genPriv validAddress sysTransfer sig D
          gw db sp spid rp rpid amount).2.2 = true ∧
      (sendSolToUserCore E iv genPub genPriv validAddress sysTransfer sig D
          gw db sp spid rp rpid amount).2.1.wallets.length
        = db.wallets.length + 1 ∧
      findSocial (sendSolToUserCore E iv genPub genPriv validAddress
          sysTransfer sig D gw db sp spid rp rpid amount).2.1 rp rpid
        = some ⟨db.nextSocialId, rp, rpid, db.nextWalletId⟩ ∧
      ((sendSolToUserCore E iv genPub genPriv validAddress sysTransfer sig
          D gw db sp spid rp rpid amount).1.isError = none →
        ∃ pre post,
          (sendSolToUserCore E iv genPub genPriv validAddress sysTransfer
              sig D gw db sp spid rp rpid amount).1.content
            = [⟨"text",
                some (pre ++ s!"A new wallet was created for {rp}:{rpid}.\n"
                  ++ post)⟩])) ∧
    (∀ senderWallet recipientWallet,
      getWalletBySocialAccount db sp spid = .ok (some senderWallet) →
      getWalletBySocialAccount db rp rpid = .ok (some recipientWallet) →
      (sendSolToUserCore E iv genPub genPriv validAddress sysTransfer sig D
          gw db sp spid rp rpid amount).2.2 = false ∧
      (sendSolToUserCore E iv genPub genPriv validAddress sysTransfer sig D
          gw db sp spid rp rpid amount).2.1 = db) := by
  refine ⟨fun h => ?_, fun senderWallet hs hr hfresh hid => ?_,
    fun senderWallet recipientWallet hs hr => ?_⟩
  · unfold sendSolToUserCore
    rw [h]
  · have hrec : getWalletBySocialAccount db rp rpid = .ok none := by
      unfold getWalletBySocialAccount
      rw [hr]
    have hrow : (db.wallets ++
        [(⟨db.nextWalletId, genPub, true,
          strOrNone (some s!"{rp}-{rpid}"),
          some (encryptPrivateKey E iv genPriv)⟩ : WalletRow)]).find?
          (fun w => w.id == db.nextWalletId)
        = some (⟨db.nextWalletId, genPub, true,
            strOrNone (some s!"{rp}-{rpid}"),
            some (encryptPrivateKey E iv genPriv)⟩ : WalletRow) := by
      rw [List.find?_append,
        List.find?_eq_none.mpr (fun w hw => by simpa using hid w hw)]
      simp
    have hcore : sendSolToUserCore E iv genPub genPriv validAddress
        sysTransfer sig D gw db sp spid rp rpid amount
      = sendSolToUserSend validAddress sysTransfer sig D gw
          { wallets := db.wallets ++
              [⟨db.nextWalletId, genPub, true,
                strOrNone (some s!"{rp}-{rpid}"),
                some (encryptPrivateKey E iv genPriv)⟩],
            socialAccounts := db.socialAccounts ++
              [⟨db.nextSocialId, rp, rpid, db.nextWalletId⟩],
            nextWalletId := db.nextWalletId + 1,
            nextSocialId := db.nextSocialId + 1 }
          senderWallet.publicKey genPub sp spid rp rpid amount true := by
      unfold sendSolToUserCore
      rw [hs, hrec,
        createWallet_ok_eq E iv genPub genPriv db rp rpid
          (some s!"{rp}-{rpid}") hr hfresh]
      dsimp only
      rw [show getWalletById
          { wallets := db.wallets ++
              [⟨db.nextWalletId, genPub, true,
                strOrNone (some s!"{rp}-{rpid}"),
                some (encryptPrivateKey E iv genPriv)⟩],
            socialAccounts := db.socialAccounts ++
              [⟨db.nextSocialId, rp, rpid, db.nextWalletId⟩],
            nextWalletId := db.nextWalletId + 1,
            nextSocialId := db.nextSocialId + 1 } db.nextWalletId
        = .ok (⟨db.nextWalletId, genPub, true,
            strOrNone (some s!"{rp}-{rpid}"),
            some (encryptPrivateKey E iv genPriv),
            (db.socialAccounts ++
              [(⟨db.nextSocialId, rp, rpid, db.nextWalletId⟩ :
                SocialAccountRow)]).filter
                (fun a => a.walletId == db.nextWalletId)⟩ : WalletInfo) from by
        unfold getWalletById
        rw [hrow]]
    rw [hcore]
    have hstate := sendSolToUserSend_state validAddress sysTransfer sig D gw
      { wallets := db.wallets ++
          [⟨db.nextWalletId, genPub, true,
            strOrNone (some s!"{rp}-{rpid}"),
            some (encryptPrivateKey E iv genPriv)⟩],
        socialAccounts := db.socialAccounts ++
          [⟨db.nextSocialId, rp, rpid, db.nextWalletId⟩],
        nextWalletId := db.nextWalletId + 1,
        nextSocialId := db.nextSocialId + 1 }
      senderWallet.publicKey genPub sp spid rp rpid amount true
    refine ⟨hstate.2, ?_, ?_, ?_⟩
    · rw [hstate.1]
      simp
    · rw [hstate.1]
      unfold findSocial at hr ⊢
      simp only [List.find?_append, hr]
      simp
    · exact sendSolToUserSend_reports validAddress sysTransfer sig D gw _
        senderWallet.publicKey genPub sp spid rp rpid amount
  · have hcore : sendSolToUserCore E iv genPub genPriv validAddress
        sysTransfer sig D gw db sp spid rp rpid amount
      = sendSolToUserSend validAddress sysTransfer sig D gw db
          senderWallet.publicKey recipientWallet.publicKey sp spid rp rpid
          amount false := by
      unfold sendSolToUserCore
      rw [hs, hr]
    rw [hcore]
    have hstate := sendSolToUserSend_state validAddress sysTransfer sig D gw
      db senderWallet.publicKey recipientWallet.publicKey sp spid rp rpid
      amount false
    exact ⟨hstate.2, hstate.1⟩

/-- Witness for C6: a store where `(twitter, alice)` is bound and
`(twitter, bob)` is not; the call creates exactly one wallet for `bob`
and reports the flag true. -/
theorem sendSolToUser_spec_witness :
    (sendSolToUserCore (fun _ t => t) (List.replicate 16 0) "RPK" "RSK"
        (fun _ => true) (fun _ _ _ => ⟨"sys", [], []⟩) (fun s _ => s)
        (fun _ c => c)
        ⟨.ok "bh", fun _ _ => .ok [], fun _ => .ok "s", fun _ => .ok ()⟩
        (DB.mk [⟨1, "SPK", true, none, some "aa:bb"⟩]
          [⟨1, "twitter", "alice", 1⟩] 2 2)
        "twitter" "alice" "twitter" "bob" 1).2.2 = true ∧
    (sendSolToUserCore (fun _ t => t) (List.replicate 16 0) "RPK" "RSK"
        (fun _ => true) (fun _ _ _ => ⟨"sys", [], []⟩) (fun s _ => s)
        (fun _ c => c)
        ⟨.ok "bh", fun _ _ => .ok [], fun _ => .ok "s", fun _ => .ok ()⟩
        (DB.mk [⟨1, "SPK", true, none, some "aa:bb"⟩]
          [⟨1, "twitter", "alice", 1⟩] 2 2)
        "twitter" "alice" "twitter" "bob" 1).2.1.wallets.length
      = (DB.mk [⟨1, "SPK", true, none, some "aa:bb"⟩]
          [⟨1, "twitter", "alice", 1⟩] 2 2).wallets.length + 1 ∧
    findSocial (sendSolToUserCore (fun _ t => t) (List.replicate 16 0)
        "RPK" "RSK" (fun _ => true) (fun _ _ _ => ⟨"sys", [], []⟩)
        (fun s _ => s) (fun _ c => c)
        ⟨.ok "bh", fun _ _ => .ok [], fun _ => .ok "s", fun _ => .ok ()⟩
        (DB.mk [⟨1, "SPK", true, none, some "aa:bb"⟩]
          [⟨1, "twitter", "alice", 1⟩] 2 2)
        "twitter" "alice" "twitter" "bob" 1).2.1 "twitter" "bob"
      = some ⟨2, "twitter", "bob", 2⟩ ∧
    ((sendSolToUserCore (fun _ t => t) (List.replicate 16 0) "RPK" "RSK"
        (fun _ => true) (fun _ _ _ => ⟨"sys", [], []⟩) (fun s _ => s)
        (fun _ c => c)
        ⟨.ok "bh", fun _ _ => .ok [], fun _ => .ok "s", fun _ => .ok ()⟩
        (DB.mk [⟨1, "SPK", true, none, some "aa:bb"⟩]
          [⟨1, "twitter", "alice", 1⟩] 2 2)
        "twitter" "alice" "twitter" "bob" 1).1.isError = none →
      ∃ pre post,
        (sendSolToUserCore (fun _ t => t) (List.replicate 16 0) "RPK" "RSK"
            (fun _ => true) (fun _ _ _ => ⟨"sys", [], []⟩) (fun s _ => s)
            (fun _ c => c)
            ⟨.ok "bh", fun _ _ => .ok [], fun _ => .ok "s", fun _ => .ok ()⟩
            (DB.mk [⟨1, "SPK", true, none, some "aa:bb"⟩]
              [⟨1, "twitter", "alice", 1⟩] 2 2)
            "twitter" "alice" "twitter" "bob" 1).1.content
          = [⟨"text",
              some (pre ++ "A new wallet was created for twitter:bob.\n"
                ++ post)⟩]) :=
  (sendSolToUser_spec (fun _ t => t) (List.replicate 16 0) "RPK" "RSK"
    (fun _ => true) (fun _ _ _ => ⟨"sys", [], []⟩) (fun s _ => s)
    (fun _ c => c)
    ⟨.ok "bh", fun _ _ => .ok [], fun _ => .ok "s", fun _ => .ok ()⟩
    (DB.mk [⟨1, "SPK", true, none, some "aa:bb"⟩]
      [⟨1, "twitter", "alice", 1⟩] 2 2)
    "twitter" "alice" "twitter" "bob" 1).2.1
    ⟨1, "SPK", true, none, some "aa:bb", [⟨1, "twitter", "alice", 1⟩]⟩
    rfl rfl rfl (by decide)

/-! ## Tool dispatcher (tool-service.ts, `executeTool` / `handleToolError`)

`executeTool(toolName, params)` consults the (reflection-discovered) tool
registry first; a registered handler is invoked and any error it raises
is normalized by `handleToolError`.  Unregistered names fall through to
the switch of direct implementations, whose default arm produces the
`not found` error envelope.  Parameters arrive as a JSON-ish bag.  All
external effects (the helper methods that call the RPC connection, the
wallet store and the vault/transfer oracles) are supplied as
environments; the function is total — the model of "never lets an
exception escape dispatch". -/

/-- A JSON-ish parameter value.  (JavaScript truthy non-string values in
a string position are conflated with invalid parameters here.) -/
inductive Value where
  | str (s : String)
  | num (q : ℚ)
  | boolean (b : Bool)
  | null
  deriving DecidableEq, Repr

/-- The parameter bag. -/
def Params := List (String × Value)

/-- `params.name` lookup. -/
def getParam (params : Params) (name : String) : Option Value :=
  ((params : List (String × Value)).find? (fun p => p.1 == name)).map (·.2)

/-- `handleToolError` (tool-service.ts:92-113): the uniform error
envelope. -/
def handleToolError (error : String) (toolName : String) :
    ToolExecutionResult :=
  ⟨[⟨"text", some s!"Error executing tool {toolName}: {error}"⟩], some true⟩

/-- A registry entry: present means `toolRegistry[toolName]` is truthy;
the inner option is `none` when `typeof toolInfo.handler !== 'function'`. -/
def RegHandler := Params → Except String ToolExecutionResult

/-- `toolRegistry[toolName]`. -/
def lookupRegistry (registry : List (String × Option RegHandler))
    (name : String) : Option (Option RegHandler) :=
  (registry.find? (fun p => p.1 == name)).map (·.2)

/-- The external surface consumed by `executeTool`'s direct
implementations: helper methods of the service that call the RPC
connection (`getWalletBalance`, `getTokenBalances`, `getTransaction`,
`getAccountInfo`, `getVersion`, `getEpochInfo`), plus the registry. -/
structure ToolEnv where
  initialized : Bool
  registry : List (String × Option RegHandler)
  getWalletBalance : String → Except String (ℚ × ℚ)
  getTokenBalances : String → Except String (List (String × ℚ))
  getTransactionInfo : String → Except String (String × Option ℚ × ℚ)
  getAccountInfo : String → Except String (ℚ × String × Bool)
  getVersion : Except String Unit
  getEpochInfo : Except String (ℕ × Option ℕ × ℕ)

/-- The vault / transfer oracles needed by the send tools, bundled. -/
structure VaultEnv where
  E : List Nat → String → String
  iv : List Nat
  genPub : String
  genPriv : String
  validAddress : String → Bool
  sysTransfer : String → String → ℤ → Instruction
  sig : String → Tx → String
  D : List Nat → String → String
  gw : Gateway

/-- The body of the `sendTokenToUser` case (tool-service.ts:745-841),
after parameter validation: the same resolve/auto-create flow as
`sendSolToUser`, with the transfer performed by `sendTokenSecure` and
thrown errors normalized by `handleToolError`. -/
def sendTokenToUserCore (V : VaultEnv) (db : DB)
    (sp spid rp rpid tokenMint : String) (amount : ℚ) (decimals : ℤ) :
    ToolExecutionResult × DB × Bool :=
  match getWalletBySocialAccount db sp spid with
  | .error e => (handleToolError e "sendTokenToUser", db, false)
  | .ok none =>
    (⟨[⟨"text", some s!"No wallet found for sender {sp}:{spid}"⟩],
      some true⟩, db, false)
  | .ok (some senderWallet) =>
    let send := fun (db1 : DB) (recipientPk : String) (wc : Bool) =>
      match (sendTokenSecure V.validAddress V.sig V.D V.gw db1
          senderWallet.publicKey recipientPk tokenMint amount decimals).1 with
      | .error e => (handleToolError e "sendTokenToUser", db1, wc)
      | .ok signature =>
        (⟨[⟨"text", some
            (s!"Successfully sent {amount} tokens from {sp}:{spid} to {rp}:{rpid}.\n"
             ++ (if wc then s!"A new wallet was created for {rp}:{rpid}.\n"
                else "")
             ++ s!"Transaction signature: {signature}")⟩], none⟩, db1, wc)
    match getWalletBySocialAccount db rp rpid with
    | .error e => (handleToolError e "sendTokenToUser", db, false)
    | .ok (some recipientWallet) => send db recipientWallet.publicKey false
    | .ok none =>
      match createWallet V.E V.iv V.genPub V.genPriv db rp rpid
          (some s!"{rp}-{rpid}") with
      | (.error e, db1, _) => (handleToolError e "sendTokenToUser", db1, false)
      | (.ok recipientWallet, db1, _) =>
        send db1 recipientWallet.publicKey true

/-- `executeTool` (tool-service.ts:544-920).  Uninitialized service and
unknown tools produce `isError` envelopes; a registered handler's raised
error is normalized by `handleToolError`; the direct implementations
validate their parameters (invalid → `isError` envelope) and normalize
the errors of their helper calls.  (The verbose parameter-diagnostics
suffix of the send tools' invalid-parameter message and the exact
JSON rendering of `networkStatus` are abbreviated; only text content is
affected.)  The function is total: every path yields an envelope. -/
def executeTool (env : ToolEnv) (V : VaultEnv) (db : DB) (toolName : String)
    (params : Params) : ToolExecutionResult × DB :=
  if env.initialized = false then
    (⟨[⟨"text", some "Tool service not initialized"⟩], some true⟩, db)
  else
    match lookupRegistry env.registry toolName with
    | some none =>
      (⟨[⟨"text", some s!"Tool {toolName} is not properly defined"⟩],
        some true⟩, db)
    | some (some handler) =>
      match handler params with
      | .ok result => (result, db)
      | .error e => (handleToolError e toolName, db)
    | none =>
      if toolName = "getBalance" then
        match getParam params "walletAddress" with
        | some (.str walletAddress) =>
          (match env.getWalletBalance walletAddress with
           | .ok balance =>
             (⟨[⟨"text", some
                 s!"Balance for {walletAddress}: {balance.1} SOL ({balance.2} lamports)"⟩],
               none⟩, db)
           | .error e => (handleToolError e toolName, db))
        | _ =>
          (⟨[⟨"text", some "Missing or invalid walletAddress parameter"⟩],
            some true⟩, db)
      else if toolName = "getTokenBalances" then
        match getParam params "walletAddress" with
        | some (.str walletAddress) =>
          (match env.getTokenBalances walletAddress with
           | .ok tokens =>
             if tokens.isEmpty then
               (⟨[⟨"text", some s!"No token balances found for {walletAddress}"⟩],
                 none⟩, db)
             else
               (⟨[⟨"text", some (s!"Token balances for {walletAddress}:\n"
                   ++ String.intercalate "\n"
                     (tokens.map (fun t => s!"{t.2} of mint {t.1}")))⟩],
                 none⟩, db)
           | .error e => (handleToolError e toolName, db))
        | _ =>
          (⟨[⟨"text", some "Missing or invalid walletAddress parameter"⟩],
            some true⟩, db)
      else if toolName = "getTransaction" then
        match getParam params "signature" with
        | some (.str signature) =>
          (match env.getTransactionInfo signature with
           | .ok info =>
             let blockTimeText := match info.2.1 with
               | some t => if t = 0 then "unknown" else toString t
               | none => "unknown"
             (⟨[⟨"text", some
                 s!"Transaction {signature}:\nStatus: {info.1}\nFee: {info.2.2} lamports\nBlock time: {blockTimeText}"⟩],
               none⟩, db)
           | .error e => (handleToolError e toolName, db))
        | _ =>
          (⟨[⟨"text", some "Missing or invalid signature parameter"⟩],
            some true⟩, db)
      else if toolName = "getAccountInfo" then
        match getParam params "address" with
        | some (.str address) =>
          (match env.getAccountInfo address with
           | .ok info =>
             (⟨[⟨"text", some
                 s!"Account {address}:\nBalance: {info.1 / 1000000000} SOL\nOwner: {info.2.1}\nExecutable: {info.2.2}"⟩],
               none⟩, db)
           | .error e => (handleToolError e toolName, db))
        | _ =>
          (⟨[⟨"text", some "Missing or invalid address parameter"⟩],
            some true⟩, db)
      else if toolName = "sendSolToUser" then
        match getParam params "senderPlatform",
            getParam params "senderPlatformId",
            getParam params "recipientPlatform",
            getParam params "recipientPlatformId",
            getParam params "amount" with
        | some (.str sp), some (.str spid), some (.str rp),
            some (.str rpid), some (.num amount) =>
          if sp = "" ∨ spid = "" ∨ rp = "" ∨ rpid = "" then
            (⟨[⟨"text", some "Missing or invalid parameters for sendSolToUser. Required: senderPlatform, senderPlatformId, recipientPlatform, recipientPlatformId, amount"⟩],
              some true⟩, db)
          else
            let r := sendSolToUserCore V.E V.iv V.genPub V.genPriv
              V.validAddress V.sysTransfer V.sig V.D V.gw db sp spid rp rpid
              amount
            (r.1, r.2.1)
        | _, _, _, _, _ =>
          (⟨[⟨"text", some "Missing or invalid parameters for sendSolToUser. Required: senderPlatform, senderPlatformId, recipientPlatform, recipientPlatformId, amount"⟩],
            some true⟩, db)
      else if toolName = "sendTokenToUser" then
        match getParam params "senderPlatform",
            getParam params "senderPlatformId",
            getParam params "recipientPlatform",
            getParam params "recipientPlatformId",
            getParam params "tokenMint",
            getParam params "amount",
            getParam params "decimals" with
        | some (.str sp), some (.str spid), some (.str rp),
            some (.str rpid), some (.str tokenMint), some (.num amount),
            some (.num decimals) =>
          if sp = "" ∨ spid = "" ∨ rp = "" ∨ rpid = "" ∨ tokenMint = "" then
            (⟨[⟨"text", some "Missing or invalid parameters for sendTokenToUser. Required: senderPlatform, senderPlatformId, recipientPlatform, recipientPlatformId, tokenMint, amount, decimals"⟩],
              some true⟩, db)
          else
            let r := sendTokenToUserCore V db sp spid rp rpid tokenMint
              amount ⌊decimals⌋
            (r.1, r.2.1)
        | _, _, _, _, _, _, _ =>
          (⟨[⟨"text", some "Missing or invalid parameters for sendTokenToUser. Required: senderPlatform, senderPlatformId, recipientPlatform, recipientPlatformId, tokenMint, amount, decimals"⟩],
            some true⟩, db)
      else if toolName = "networkStatus" then
        let health := match env.getVersion with
          | .ok _ => "okay"
          | .error _ => "down"
        match env.getEpochInfo with
        | .ok info =>
          let blockHeightText := match info.2.1 with
            | some b => toString b
            | none => "unknown"
          (⟨[⟨"text", some
              s!"health: {health}, currentEpoch: {info.1}, blockHeight: {blockHeightText}, currentSlot: {info.2.2}"⟩],
            none⟩, db)
        | .error e =>
          (handleToolError s!"Failed to get network status: {e}" toolName,
           db)
      else
        (⟨[⟨"text", some
            (s!"Tool {toolName} not found or not implemented directly. Available tools in registry: "
             ++ String.intercalate ", " (env.registry.map (·.1)))⟩],
          some true⟩, db)

/-- **C4.** Dispatch always returns a result envelope and never throws
(the model is a total function; every fallible call it makes is matched
and normalized): an uninitialized service yields an `isError: true`
envelope, an unknown operation name — not registered and not a direct
implementation — yields the `not found` envelope tagged `isError: true`
rather than an exception, and any error raised by a registered handler is
normalized by `handleToolError` into a textual `isError: true`
envelope. -/
theorem executeTool_envelope_spec (env : ToolEnv) (V : VaultEnv) (db : DB)
    (toolName : String) (params : Params) :
    (env.initialized = false →
      (executeTool env V db toolName params).1.isError = some true) ∧
    (env.initialized = true →
      lookupRegistry env.registry toolName = none →
      toolName ∉ ["getBalance", "getTokenBalances", "getTransaction",
        "getAccountInfo", "sendSolToUser", "sendTokenToUser",
        "networkStatus"] →
      (executeTool env V db toolName params).1
        = ⟨[⟨"text", some
            (s!"Tool {toolName} not found or not implemented directly. Available tools in registry: "
             ++ String.intercalate ", " (env.registry.map (·.1)))⟩],
          some true⟩ ∧
      (executeTool env V db toolName params).1.isError = some true) ∧
    (∀ h e, env.initialized = true →
      lookupRegistry env.registry toolName = some (some h) →
      h params = .error e →
      (executeTool env V db toolName params).1 = handleToolError e toolName ∧
      (executeTool env V db toolName params).1.isError = some true) := by
  refine ⟨fun hinit => ?_, fun hinit hlook hnotin => ?_,
    fun h e hinit hlook hh => ?_⟩
  · unfold executeTool
    rw [if_pos hinit]
  · have hni : ¬(env.initialized = false) := by simp [hinit]
    simp only [List.mem_cons, List.not_mem_nil, or_false, not_or] at hnotin
    obtain ⟨n1, n2, n3, n4, n5, n6, n7⟩ := hnotin
    unfold executeTool
    rw [if_neg hni, hlook]
    rw [if_neg n1, if_neg n2, if_neg n3, if_neg n4, if_neg n5, if_neg n6,
      if_neg n7]
    exact ⟨rfl, rfl⟩
  · have hni : ¬(env.initialized = false) := by simp [hinit]
    unfold executeTool
    rw [if_neg hni, hlook]
    dsimp only
    rw [hh]
    exact ⟨rfl, rfl⟩

/-- Witness for C4: a registry with one erroring handler; the unknown
operation `unknownOp` yields an error envelope, and the handler's raised
error is normalized. -/
theorem executeTool_envelope_spec_witness :
    (executeTool
        ⟨true, [("boom", some (fun _ => .error "kaput"))],
          fun _ => .error "x", fun _ => .error "x", fun _ => .error "x",
          fun _ => .error "x", .error "x", .error "x"⟩
        ⟨fun _ t => t, List.replicate 16 0, "P", "S", fun _ => true,
          fun _ _ _ => ⟨"sys", [], []⟩, fun s _ => s, fun _ c => c,
          ⟨.ok "bh", fun _ _ => .ok [], fun _ => .ok "s", fun _ => .ok ()⟩⟩
        ⟨[], [], 1, 1⟩ "unknownOp" ([] : Params)).1.isError = some true ∧
    (executeTool
        ⟨true, [("boom", some (fun _ => .error "kaput"))],
          fun _ => .error "x", fun _ => .error "x", fun _ => .error "x",
          fun _ => .error "x", .error "x", .error "x"⟩
        ⟨fun _ t => t, List.replicate 16 0, "P", "S", fun _ => true,
          fun _ _ _ => ⟨"sys", [], []⟩, fun s _ => s, fun _ c => c,
          ⟨.ok "bh", fun _ _ => .ok [], fun _ => .ok "s", fun _ => .ok ()⟩⟩
        ⟨[], [], 1, 1⟩ "boom" ([] : Params)).1
      = handleToolError "kaput" "boom" := by
  constructor
  · exact ((executeTool_envelope_spec
      ⟨true, [("boom", some (fun _ => .error "kaput"))],
        fun _ => .error "x", fun _ => .error "x", fun _ => .error "x",
        fun _ => .error "x", .error "x", .error "x"⟩
      ⟨fun _ t => t, List.replicate 16 0, "P", "S", fun _ => true,
        fun _ _ _ => ⟨"sys", [], []⟩, fun s _ => s, fun _ c => c,
        ⟨.ok "bh", fun _ _ => .ok [], fun _ => .ok "s", fun _ => .ok ()⟩⟩
      ⟨[], [], 1, 1⟩ "unknownOp" ([] : Params)).2.1 rfl rfl (by decide)).2
  · exact ((executeTool_envelope_spec
      ⟨true, [("boom", some (fun _ => .error "kaput"))],
        fun _ => .error "x", fun _ => .error "x", fun _ => .error "x",
        fun _ => .error "x", .error "x", .error "x"⟩
      ⟨fun _ t => t, List.replicate 16 0, "P", "S", fun _ => true,
        fun _ _ _ => ⟨"sys", [], []⟩, fun s _ => s, fun _ c => c,
        ⟨.ok "bh", fun _ _ => .ok [], fun _ => .ok "s", fun _ => .ok ()⟩⟩
      ⟨[], [], 1, 1⟩ "boom" ([] : Params)).2.2
      (fun _ => .error "kaput") "kaput" rfl rfl rfl).1

end McpServer
